import Mathlib

/-!
Shallow embedding of the connection pool of `internal/database/pool.go`
(simpledb-mcp). Time is modelled as `Nat` (instants and durations in the
same abstract unit); a raw `*sql.DB` handle is modelled as `Option Nat`
(`none` = nil pointer, `some h` = an open handle identified by `h`).
The Go registry `map[string]*PooledConnection` is modelled as an
association list with unique keys (Go maps cannot hold duplicate keys).
I/O outcomes (credential/open errors, ping results) are passed in as
explicit parameters, since the Go code receives them from the driver.
Calls to `(*sql.DB).Close` are recorded in a ghost field `closedHandles`
so that resource-release claims can be stated.
-/

/-- Connection states, mirroring the `ConnectionState` constants of pool.go. -/
inductive ConnectionState where
  | StateDisconnected
  | StateConnecting
  | StateConnected
  | StateError
  | StateIdle
deriving DecidableEq

open ConnectionState

/-- Mirror of the `PooledConnection` struct (the `Config` field, never read by
the pool logic, and the per-entry mutex are omitted). -/
structure PooledConnection where
  Name : String
  DB : Option Nat
  State : ConnectionState
  LastUsed : Nat
  LastPing : Nat
  ErrorCount : Nat
  CreatedAt : Nat
deriving DecidableEq

/-- Mirror of the `ConnectionPool` struct. `configNames` stands for the set of
connection names present in the manager's static configuration
(`p.manager.config.GetConnection` succeeds exactly on these). `closedHandles`
is a ghost log of every handle on which `Close` was invoked. -/
structure ConnectionPool where
  connections : List (String × PooledConnection)
  configNames : List String
  pingInterval : Nat
  maxIdleTime : Nat
  maxErrorCount : Nat
  totalConnections : Nat
  successfulPings : Nat
  failedPings : Nat
  closedHandles : List Nat
deriving DecidableEq

/-- Mirror of the `ConnectionStatus` struct returned by status queries. -/
structure ConnectionStatus where
  Name : String
  State : ConnectionState
  LastUsed : Nat
  LastPing : Nat
  ErrorCount : Nat
  CreatedAt : Nat
  IdleTime : Nat
  ConnectedFor : Nat
deriving DecidableEq

/-- Mirror of the `PoolMetrics` struct returned by `GetPoolMetrics`. -/
structure PoolMetrics where
  TotalConnections : Nat
  ActiveConnections : Nat
  ConnectedCount : Nat
  ErrorCount : Nat
  SuccessfulPings : Nat
  FailedPings : Nat
  PingInterval : Nat
  MaxIdleTime : Nat
deriving DecidableEq

/-- Lookup in the registry (Go map read `p.connections[name]`). -/
def lookupConn : List (String × PooledConnection) → String → Option PooledConnection
  | [], _ => none
  | (k, v) :: rest, name => if k = name then some v else lookupConn rest name

/-- Insert-or-replace in the registry (Go map write `p.connections[name] = c`). -/
def updateConn : List (String × PooledConnection) → String → PooledConnection →
    List (String × PooledConnection)
  | [], name, v => [(name, v)]
  | (k, w) :: rest, name, v =>
      if k = name then (name, v) :: rest else (k, w) :: updateConn rest name v

/-- Outcome of the driver-level work done inside `createConnection`:
`rawFail` = `createRawConnection` returned an error (credential resolution or
open failure), `pingFail h` = the raw open returned handle `h` but the initial
`db.Ping()` failed, `ok h` = open and initial ping both succeeded. -/
inductive CreateOutcome where
  | rawFail (msg : String)
  | pingFail (handle : Nat) (msg : String)
  | ok (handle : Nat)
deriving DecidableEq

/-- Errors returned by the pool, mirroring the three `fmt.Errorf` sites:
a not-found configuration error, the underlying `createRawConnection` error
passed through unchanged, and the wrapped initial-ping error. -/
inductive PoolError where
  | notFound (name : String)
  | rawConnFailed (msg : String)
  | pingFailed (msg : String)
deriving DecidableEq

/-- Embedding of `createConnection` (pool.go lines 123-180). The fresh entry is
stored in the registry before the raw open is attempted, then mutated in place
according to the outcome, exactly as the Go code does through the shared
pointer. -/
def createConnection (p : ConnectionPool) (name : String) (outcome : CreateOutcome)
    (now : Nat) : ConnectionPool × Except PoolError Nat :=
  if name ∈ p.configNames then
    let pooledConn : PooledConnection :=
      { Name := name, DB := none, State := StateConnecting,
        LastUsed := now, LastPing := 0, ErrorCount := 0, CreatedAt := now }
    let p1 : ConnectionPool := { p with connections := updateConn p.connections name pooledConn }
    match outcome with
    | CreateOutcome.rawFail msg =>
        let conn2 : PooledConnection :=
          { pooledConn with State := StateError, ErrorCount := pooledConn.ErrorCount + 1 }
        ({ p1 with connections := updateConn p1.connections name conn2 },
         Except.error (PoolError.rawConnFailed msg))
    | CreateOutcome.pingFail handle msg =>
        let conn2 : PooledConnection :=
          { pooledConn with State := StateError, ErrorCount := pooledConn.ErrorCount + 1 }
        ({ p1 with
             closedHandles := p1.closedHandles ++ [handle],
             connections := updateConn p1.connections name conn2 },
         Except.error (PoolError.pingFailed msg))
    | CreateOutcome.ok handle =>
        let conn2 : PooledConnection :=
          { pooledConn with
              DB := some handle, State := StateConnected,
              LastPing := now, ErrorCount := 0 }
        ({ p1 with
             connections := updateConn p1.connections name conn2,
             totalConnections := p1.totalConnections + 1 },
         Except.ok handle)
  else
    (p, Except.error (PoolError.notFound name))

/-- Embedding of `GetConnection` (pool.go lines 101-120): if an entry exists its
`LastUsed` is refreshed; a Connected entry with a non-nil handle is returned
as is, every other case falls through to `createConnection`. -/
def GetConnection (p : ConnectionPool) (name : String) (outcome : CreateOutcome)
    (now : Nat) : ConnectionPool × Except PoolError Nat :=
  match lookupConn p.connections name with
  | some conn =>
      let conn1 : PooledConnection := { conn with LastUsed := now }
      let p1 : ConnectionPool := { p with connections := updateConn p.connections name conn1 }
      match conn1.State, conn1.DB with
      | StateConnected, some handle => (p1, Except.ok handle)
      | _, _ => createConnection p1 name outcome now
  | none => createConnection p name outcome now

/-- Embedding of `checkConnection` (pool.go lines 218-255). `pingOk` is the
result the driver's `PingContext` would report for this entry's handle. -/
def checkConnection (p : ConnectionPool) (conn : PooledConnection) (pingOk : Bool)
    (now : Nat) : ConnectionPool × PooledConnection :=
  if conn.DB = none ∨ conn.State = StateError then
    (p, conn)
  else if pingOk then
    ({ p with successfulPings := p.successfulPings + 1 },
     { conn with
         LastPing := now,
         State := if conn.State = StateError then StateConnected else conn.State,
         ErrorCount := 0 })
  else
    let conn1 : PooledConnection :=
      { conn with State := StateError, ErrorCount := conn.ErrorCount + 1 }
    let p1 : ConnectionPool := { p with failedPings := p.failedPings + 1 }
    if p.maxErrorCount ≤ conn1.ErrorCount then
      ({ p1 with closedHandles := p1.closedHandles ++ conn.DB.toList },
       { conn1 with DB := none, State := StateDisconnected })
    else
      (p1, conn1)

/-- Boolean form of the removal test of `cleanupIdleConnections`
(`idleTime > p.maxIdleTime && conn.State != StateConnected`). -/
def shouldRemove (maxIdle now : Nat) (conn : PooledConnection) : Bool :=
  decide (maxIdle < now - conn.LastUsed) && decide (conn.State ≠ StateConnected)

/-- Embedding of `cleanupIdleConnections` (pool.go lines 258-286): first collect
the names to remove, then close each removed entry's handle and delete the
entry from the registry. -/
def cleanupIdleConnections (p : ConnectionPool) (now : Nat) : ConnectionPool :=
  let toRemove : List String :=
    (p.connections.filter (fun e => shouldRemove p.maxIdleTime now e.2)).map Prod.fst
  let closed : List Nat :=
    (p.connections.filter (fun e => decide (e.1 ∈ toRemove))).filterMap (fun e => e.2.DB)
  { p with
      closedHandles := p.closedHandles ++ closed,
      connections := p.connections.filter (fun e => !decide (e.1 ∈ toRemove)) }

/-- One health-check sweep over a list of entry names (the loop body of
`healthCheck` over the snapshot of registry pointers). -/
def checkAll (p : ConnectionPool) (names : List String) (pingOk : String → Bool)
    (now : Nat) : ConnectionPool :=
  names.foldl
    (fun acc n =>
      match lookupConn acc.connections n with
      | none => acc
      | some conn =>
          let res := checkConnection acc conn (pingOk n) now
          { res.1 with connections := updateConn res.1.connections n res.2 })
    p

/-- Embedding of `healthCheck` (pool.go lines 201-215): check every entry, then
reap idle connections. This is what one background-monitor tick runs. -/
def healthCheck (p : ConnectionPool) (pingOk : String → Bool) (now : Nat) : ConnectionPool :=
  cleanupIdleConnections (checkAll p (p.connections.map Prod.fst) pingOk now) now

/-- Embedding of `GetConnectionStatus` (pool.go lines 289-314). The method only
takes read locks; the pool is returned unchanged alongside the snapshot so the
frame property can be stated. -/
def GetConnectionStatus (p : ConnectionPool) (name : String) (now : Nat) :
    ConnectionStatus × ConnectionPool :=
  match lookupConn p.connections name with
  | none =>
      ({ Name := name, State := StateDisconnected, LastUsed := 0, LastPing := 0,
         ErrorCount := 0, CreatedAt := 0, IdleTime := 0, ConnectedFor := 0 }, p)
  | some conn =>
      ({ Name := conn.Name, State := conn.State, LastUsed := conn.LastUsed,
         LastPing := conn.LastPing, ErrorCount := conn.ErrorCount,
         CreatedAt := conn.CreatedAt, IdleTime := now - conn.LastUsed,
         ConnectedFor := now - conn.CreatedAt }, p)

/-- Loop body of the counting pass of `GetPoolMetrics`: the if / else-if chain
that classifies one registry entry as Connected or Error. -/
def metricsStep (acc : Nat × Nat) (e : String × PooledConnection) : Nat × Nat :=
  if e.2.State = StateConnected then (acc.1 + 1, acc.2)
  else if e.2.State = StateError then (acc.1, acc.2 + 1)
  else acc

/-- Embedding of `GetPoolMetrics` (pool.go lines 341-368): a single counting
pass over the registry, then a snapshot of the counters. -/
def GetPoolMetrics (p : ConnectionPool) : PoolMetrics :=
  let counts : Nat × Nat := p.connections.foldl metricsStep (0, 0)
  { TotalConnections := p.totalConnections,
    ActiveConnections := p.connections.length,
    ConnectedCount := counts.1,
    ErrorCount := counts.2,
    SuccessfulPings := p.successfulPings,
    FailedPings := p.failedPings,
    PingInterval := p.pingInterval,
    MaxIdleTime := p.maxIdleTime }

/-- Health test used by `GetConnection` to decide whether an existing entry can
be returned without recreation (`State == StateConnected && DB != nil`). -/
def isHealthy : Option PooledConnection → Bool
  | none => false
  | some conn => decide (conn.State = StateConnected) && conn.DB.isSome

deriving instance DecidableEq for Except

/-- Lookup after an insert-or-replace at the same key yields the new value. -/
theorem lookupConn_updateConn_self (l : List (String × PooledConnection)) (name : String)
    (v : PooledConnection) : lookupConn (updateConn l name v) name = some v := by
  induction l with
  | nil => simp [updateConn, lookupConn]
  | cons e rest ih =>
      obtain ⟨k, w⟩ := e
      by_cases hk : k = name
      · simp [updateConn, hk, lookupConn]
      · simp [updateConn, hk, lookupConn, ih]

/-- Successful lookup produces a pair that is a member of the list. -/
theorem mem_of_lookupConn {l : List (String × PooledConnection)} {name : String}
    {conn : PooledConnection} (h : lookupConn l name = some conn) : (name, conn) ∈ l := by
  induction l with
  | nil => simp [lookupConn] at h
  | cons e rest ih =>
      obtain ⟨k, w⟩ := e
      by_cases hk : k = name
      · simp [lookupConn, hk] at h
        simp [hk, h]
      · simp [lookupConn, hk] at h
        exact List.mem_cons_of_mem _ (ih h)

/-- With duplicate-free keys, any member sharing the looked-up key carries the
looked-up value. -/
theorem lookupConn_key_nodup {l : List (String × PooledConnection)}
    (hnd : (l.map Prod.fst).Nodup) {name : String} {conn conn' : PooledConnection}
    (h : lookupConn l name = some conn) (hm : (name, conn') ∈ l) : conn' = conn := by
  induction l with
  | nil => simp at hm
  | cons e rest ih =>
      obtain ⟨k, w⟩ := e
      simp only [List.map_cons, List.nodup_cons] at hnd
      rcases List.mem_cons.mp hm with heq | hmem
      · cases heq
        simp [lookupConn] at h
        exact h
      · by_cases hk : k = name
        · exfalso
          apply hnd.1
          rw [hk]
          exact List.mem_map.mpr ⟨(name, conn'), hmem, rfl⟩
        · simp only [lookupConn, if_neg hk] at h
          exact ih hnd.2 h hmem

/-- Filtering out a set of keys that does not contain the looked-up key leaves
the lookup result unchanged. -/
theorem lookupConn_filter_keys_of_notMem {l : List (String × PooledConnection)}
    {R : List String} {name : String} (h : name ∉ R) :
    lookupConn (l.filter (fun e => !decide (e.1 ∈ R))) name = lookupConn l name := by
  induction l with
  | nil => rfl
  | cons e rest ih =>
      obtain ⟨k, w⟩ := e
      by_cases hkR : k ∈ R
      · have hk : ¬ k = name := fun hkn => h (hkn ▸ hkR)
        simp [List.filter_cons, hkR, lookupConn, hk, ih]
      · by_cases hk : k = name
        · simp [List.filter_cons, hkR, lookupConn, hk, h]
        · simp [List.filter_cons, hkR, lookupConn, hk, ih]

/-- Filtering out a set of keys containing the looked-up key empties the lookup. -/
theorem lookupConn_filter_keys_of_mem {l : List (String × PooledConnection)}
    {R : List String} {name : String} (h : name ∈ R) :
    lookupConn (l.filter (fun e => !decide (e.1 ∈ R))) name = none := by
  induction l with
  | nil => rfl
  | cons e rest ih =>
      obtain ⟨k, w⟩ := e
      by_cases hkR : k ∈ R
      · simp [List.filter_cons, hkR, ih]
      · have hk : ¬ k = name := fun hkn => hkR (hkn ▸ h)
        simp [List.filter_cons, hkR, lookupConn, hk, ih]

/-- Unfolding of the counting pass of `GetPoolMetrics`: starting from any
accumulator it adds the number of Connected entries to the first component and
the number of Error entries to the second. -/
theorem metricsFold_spec (l : List (String × PooledConnection)) (a b : Nat) :
    (l.foldl metricsStep (a, b)).1 =
        a + (l.filter (fun e => decide (e.2.State = StateConnected))).length
    ∧ (l.foldl metricsStep (a, b)).2 =
        b + (l.filter (fun e => decide (e.2.State = StateError))).length := by
  induction l generalizing a b with
  | nil => simp
  | cons e rest ih =>
      cases hs : e.2.State <;>
        simp [metricsStep, hs, List.filter_cons, ih] <;> omega

/-- Connected and Error entries are disjoint classes, so their counts sum to at
most the registry size. -/
theorem filter_connected_error_le (l : List (String × PooledConnection)) :
    (l.filter (fun e => decide (e.2.State = StateConnected))).length
      + (l.filter (fun e => decide (e.2.State = StateError))).length ≤ l.length := by
  induction l with
  | nil => simp
  | cons e rest ih =>
      cases hs : e.2.State <;> simp [List.filter_cons, hs] <;> omega

/-- Unfolding of `createConnection` on an unconfigured name: the pool is
untouched and a not-found error is returned. -/
theorem createConnection_notFound (p : ConnectionPool) (name : String)
    (outcome : CreateOutcome) (now : Nat) (hc : name ∉ p.configNames) :
    createConnection p name outcome now = (p, Except.error (PoolError.notFound name)) := by
  unfold createConnection
  rw [if_neg hc]

/-- Unfolding of `createConnection` when `createRawConnection` fails. -/
theorem createConnection_rawFail_eq (p : ConnectionPool) (name msg : String) (now : Nat)
    (hc : name ∈ p.configNames) :
    createConnection p name (CreateOutcome.rawFail msg) now =
      ({ p with
           connections :=
             updateConn
               (updateConn p.connections name
                 ({ Name := name, DB := none, State := StateConnecting, LastUsed := now,
                    LastPing := 0, ErrorCount := 0, CreatedAt := now }))
               name
               ({ Name := name, DB := none, State := StateError, LastUsed := now,
                  LastPing := 0, ErrorCount := 1, CreatedAt := now }) },
       Except.error (PoolError.rawConnFailed msg)) := by
  unfold createConnection
  rw [if_pos hc]

/-- Unfolding of `createConnection` when the raw open succeeds with `handle`
but the initial ping fails: the handle is closed, the stored entry keeps a nil
handle in Error state. -/
theorem createConnection_pingFail_eq (p : ConnectionPool) (name msg : String)
    (handle : Nat) (now : Nat) (hc : name ∈ p.configNames) :
    createConnection p name (CreateOutcome.pingFail handle msg) now =
      ({ p with
           closedHandles := p.closedHandles ++ [handle],
           connections :=
             updateConn
               (updateConn p.connections name
                 ({ Name := name, DB := none, State := StateConnecting, LastUsed := now,
                    LastPing := 0, ErrorCount := 0, CreatedAt := now }))
               name
               ({ Name := name, DB := none, State := StateError, LastUsed := now,
                  LastPing := 0, ErrorCount := 1, CreatedAt := now }) },
       Except.error (PoolError.pingFailed msg)) := by
  unfold createConnection
  rw [if_pos hc]

/-- Unfolding of `createConnection` when open and initial ping both succeed. -/
theorem createConnection_ok_eq (p : ConnectionPool) (name : String) (handle : Nat)
    (now : Nat) (hc : name ∈ p.configNames) :
    createConnection p name (CreateOutcome.ok handle) now =
      ({ p with
           connections :=
             updateConn
               (updateConn p.connections name
                 ({ Name := name, DB := none, State := StateConnecting, LastUsed := now,
                    LastPing := 0, ErrorCount := 0, CreatedAt := now }))
               name
               ({ Name := name, DB := some handle, State := StateConnected, LastUsed := now,
                  LastPing := now, ErrorCount := 0, CreatedAt := now }),
           totalConnections := p.totalConnections + 1 },
       Except.ok handle) := by
  unfold createConnection
  rw [if_pos hc]

/-- Reduction of `GetConnection` when the looked-up entry is not healthy (or
absent): the call falls through to `createConnection` on a pool that differs
from `p` at most in its `connections` field. -/
theorem GetConnection_not_healthy (p : ConnectionPool) (name : String)
    (outcome : CreateOutcome) (now : Nat)
    (hnh : isHealthy (lookupConn p.connections name) = false) :
    ∃ l', GetConnection p name outcome now =
        createConnection { p with connections := l' } name outcome now := by
  unfold GetConnection
  cases hl : lookupConn p.connections name with
  | none => exact ⟨p.connections, rfl⟩
  | some conn =>
      rw [hl] at hnh
      refine ⟨updateConn p.connections name ({ conn with LastUsed := now }), ?_⟩
      cases hs : conn.State <;> cases hdb : conn.DB <;>
        simp_all [isHealthy]

/-- C1: the claim says a successful background ping on the next monitor tick
heals an Error-state entry that still holds a raw handle (lastPing := now,
errorCount := 0, successfulPings += 1, state back to Connected). Evaluating
the code at such an entry shows the opposite: `checkConnection` returns early
for every entry whose state is Error, so the pass leaves the entry and all
pool counters completely unchanged and the recovery branch is unreachable. -/
theorem c1_error_entry_skipped_by_health_check :
    (let conn : PooledConnection :=
       { Name := "db1", DB := some 7, State := StateError, LastUsed := 100,
         LastPing := 50, ErrorCount := 1, CreatedAt := 0 };
     let p : ConnectionPool :=
       { connections := [("db1", conn)], configNames := ["db1"], pingInterval := 30,
         maxIdleTime := 900, maxErrorCount := 3, totalConnections := 1,
         successfulPings := 0, failedPings := 1, closedHandles := [] };
     conn.State = StateError ∧ conn.DB = some 7 ∧ conn.ErrorCount < p.maxErrorCount
     ∧ healthCheck p (fun _ => true) 130 = p) := by
  decide

/-- C2: the claim says an entry whose errorCount has reached maxErrorCount
while in Error state has its handle closed and its state set to Disconnected
on the very next health-check pass. Evaluating the code at such an entry
(errorCount = maxErrorCount = 3, handle 7 still present) shows the pass skips
it entirely: the handle stays open, the state stays Error, nothing is closed. -/
theorem c2_threshold_entry_never_closed :
    (let conn : PooledConnection :=
       { Name := "db1", DB := some 7, State := StateError, LastUsed := 100,
         LastPing := 50, ErrorCount := 3, CreatedAt := 0 };
     let p : ConnectionPool :=
       { connections := [("db1", conn)], configNames := ["db1"], pingInterval := 30,
         maxIdleTime := 900, maxErrorCount := 3, totalConnections := 1,
         successfulPings := 0, failedPings := 3, closedHandles := [] };
     conn.State = StateError ∧ conn.DB = some 7 ∧ p.maxErrorCount ≤ conn.ErrorCount
     ∧ healthCheck p (fun _ => false) 130 = p) := by
  decide

/-- C7: `GetConnection` on a name with no matching static configuration (and,
as in every reachable pool, no registry entry for it) returns a not-found
error and leaves the whole pool — in particular the registry — unchanged. -/
theorem c7_unknown_name_rejected_without_entry (p : ConnectionPool) (name : String)
    (outcome : CreateOutcome) (now : Nat)
    (hc : name ∉ p.configNames)
    (hl : lookupConn p.connections name = none) :
    GetConnection p name outcome now = (p, Except.error (PoolError.notFound name)) := by
  unfold GetConnection
  rw [hl]
  exact createConnection_notFound p name outcome now hc

/-- Witness for C7 at a concrete pool: one configured connection "a", request
for the unconfigured name "z". -/
theorem c7_witness :
    (let p : ConnectionPool :=
       { connections := [], configNames := ["a"], pingInterval := 30,
         maxIdleTime := 900, maxErrorCount := 3, totalConnections := 0,
         successfulPings := 0, failedPings := 0, closedHandles := [] };
     GetConnection p "z" (CreateOutcome.ok 5) 10 =
       (p, Except.error (PoolError.notFound "z"))) := by
  exact c7_unknown_name_rejected_without_entry _ "z" (CreateOutcome.ok 5) 10
    (by decide) (by decide)

/-- C8: `GetConnectionStatus` for a name with no registry entry returns the
synthesized Disconnected snapshot with zero timestamps and zero error count,
and hands back the pool unchanged (same registry, same size). -/
theorem c8_status_of_missing_entry (p : ConnectionPool) (name : String) (now : Nat)
    (hl : lookupConn p.connections name = none) :
    GetConnectionStatus p name now =
      ({ Name := name, State := StateDisconnected, LastUsed := 0, LastPing := 0,
         ErrorCount := 0, CreatedAt := 0, IdleTime := 0, ConnectedFor := 0 }, p) := by
  unfold GetConnectionStatus
  rw [hl]

/-- Witness for C8 at a concrete pool holding one unrelated entry. -/
theorem c8_witness :
    (let conn : PooledConnection :=
       { Name := "a", DB := some 3, State := StateConnected, LastUsed := 4,
         LastPing := 4, ErrorCount := 0, CreatedAt := 1 };
     let p : ConnectionPool :=
       { connections := [("a", conn)], configNames := ["a"], pingInterval := 30,
         maxIdleTime := 900, maxErrorCount := 3, totalConnections := 1,
         successfulPings := 0, failedPings := 0, closedHandles := [] };
     GetConnectionStatus p "ghost" 20 =
       ({ Name := "ghost", State := StateDisconnected, LastUsed := 0, LastPing := 0,
          ErrorCount := 0, CreatedAt := 0, IdleTime := 0, ConnectedFor := 0 }, p)) := by
  exact c8_status_of_missing_entry _ "ghost" 20 (by decide)

/-- C3: `GetConnection` contract. If the entry for the name is Connected with a
non-nil handle, only its `LastUsed` is refreshed and the stored handle is
returned with no creation (the pool is otherwise identical, so
`totalConnections` is untouched). Otherwise, on a successful synchronous
creation the registered entry is Connected with `LastPing = now` and
`ErrorCount = 0`, the cumulative created-count grows by one, and the stored
handle is exactly the returned one. -/
theorem c3_GetConnection_contract (p : ConnectionPool) (now : Nat) :
    (∀ name conn handle outcome, lookupConn p.connections name = some conn →
       conn.State = StateConnected → conn.DB = some handle →
       GetConnection p name outcome now =
         ({ p with connections := updateConn p.connections name ({ conn with LastUsed := now }) },
          Except.ok handle))
    ∧ (∀ name handle, name ∈ p.configNames →
       isHealthy (lookupConn p.connections name) = false →
       (GetConnection p name (CreateOutcome.ok handle) now).2 = Except.ok handle
       ∧ (GetConnection p name (CreateOutcome.ok handle) now).1.totalConnections
           = p.totalConnections + 1
       ∧ lookupConn (GetConnection p name (CreateOutcome.ok handle) now).1.connections name =
           some { Name := name, DB := some handle, State := StateConnected,
                  LastUsed := now, LastPing := now, ErrorCount := 0, CreatedAt := now }) := by
  constructor
  · intro name conn handle outcome hl hst hdb
    unfold GetConnection
    rw [hl]
    simp [hst, hdb]
  · intro name handle hc hnh
    obtain ⟨l', hEq⟩ := GetConnection_not_healthy p name (CreateOutcome.ok handle) now hnh
    rw [hEq, createConnection_ok_eq ({ p with connections := l' }) name handle now hc]
    exact ⟨rfl, rfl, lookupConn_updateConn_self _ name _⟩

/-- Witness for C3: pool with a healthy entry "a" (handle 7) and a configured
but absent name "b"; the healthy path returns 7 touching only `LastUsed`, the
creation path installs and returns handle 5. -/
theorem c3_witness :
    (let hconn : PooledConnection :=
       { Name := "a", DB := some 7, State := StateConnected, LastUsed := 1,
         LastPing := 2, ErrorCount := 0, CreatedAt := 1 };
     let p : ConnectionPool :=
       { connections := [("a", hconn)], configNames := ["a", "b"], pingInterval := 30,
         maxIdleTime := 900, maxErrorCount := 3, totalConnections := 1,
         successfulPings := 0, failedPings := 0, closedHandles := [] };
     GetConnection p "a" (CreateOutcome.rawFail "unused") 50 =
       ({ p with connections := updateConn p.connections "a" ({ hconn with LastUsed := 50 }) },
        Except.ok 7)
     ∧ (GetConnection p "b" (CreateOutcome.ok 5) 50).2 = Except.ok 5
     ∧ (GetConnection p "b" (CreateOutcome.ok 5) 50).1.totalConnections = 2
     ∧ lookupConn (GetConnection p "b" (CreateOutcome.ok 5) 50).1.connections "b" =
         some { Name := "b", DB := some 5, State := StateConnected, LastUsed := 50,
                LastPing := 50, ErrorCount := 0, CreatedAt := 50 }) := by
  refine ⟨?_, ?_⟩
  · exact (c3_GetConnection_contract _ 50).1 "a" _ 7 _ (by decide) (by decide) (by decide)
  · exact (c3_GetConnection_contract _ 50).2 "b" 5 (by decide) (by decide)

/-- C4: `GetConnection` on a configured name whose creation fails (credential
resolution / raw open, or the initial ping) returns the underlying error, and
the registry afterwards holds an entry for the name in Error state with a nil
handle and incremented error count — visible to a subsequent
`GetConnectionStatus` call. -/
theorem c4_failed_creation_registers_error_entry (p : ConnectionPool) (now : Nat)
    (name : String) (hc : name ∈ p.configNames)
    (hnh : isHealthy (lookupConn p.connections name) = false) :
    (∀ msg,
       (GetConnection p name (CreateOutcome.rawFail msg) now).2 =
           Except.error (PoolError.rawConnFailed msg)
       ∧ lookupConn (GetConnection p name (CreateOutcome.rawFail msg) now).1.connections name =
           some { Name := name, DB := none, State := StateError, LastUsed := now,
                  LastPing := 0, ErrorCount := 1, CreatedAt := now }
       ∧ (GetConnectionStatus (GetConnection p name (CreateOutcome.rawFail msg) now).1
            name now).1.State = StateError
       ∧ (GetConnectionStatus (GetConnection p name (CreateOutcome.rawFail msg) now).1
            name now).1.ErrorCount = 1)
    ∧ (∀ handle msg,
       (GetConnection p name (CreateOutcome.pingFail handle msg) now).2 =
           Except.error (PoolError.pingFailed msg)
       ∧ lookupConn (GetConnection p name (CreateOutcome.pingFail handle msg) now).1.connections
            name =
           some { Name := name, DB := none, State := StateError, LastUsed := now,
                  LastPing := 0, ErrorCount := 1, CreatedAt := now }
       ∧ (GetConnectionStatus (GetConnection p name (CreateOutcome.pingFail handle msg) now).1
            name now).1.State = StateError
       ∧ (GetConnectionStatus (GetConnection p name (CreateOutcome.pingFail handle msg) now).1
            name now).1.ErrorCount = 1) := by
  constructor
  · intro msg
    obtain ⟨l', hEq⟩ := GetConnection_not_healthy p name (CreateOutcome.rawFail msg) now hnh
    rw [hEq, createConnection_rawFail_eq ({ p with connections := l' }) name msg now hc]
    refine ⟨rfl, ?_, ?_, ?_⟩ <;>
      simp [GetConnectionStatus, lookupConn_updateConn_self]
  · intro handle msg
    obtain ⟨l', hEq⟩ := GetConnection_not_healthy p name (CreateOutcome.pingFail handle msg) now hnh
    rw [hEq, createConnection_pingFail_eq ({ p with connections := l' }) name msg handle now hc]
    refine ⟨rfl, ?_, ?_, ?_⟩ <;>
      simp [GetConnectionStatus, lookupConn_updateConn_self]

/-- Witness for C4: configured name "a" with no prior entry; the failing open
and the failing initial ping both leave a nil-handle Error entry. -/
theorem c4_witness :
    (let p : ConnectionPool :=
       { connections := [], configNames := ["a"], pingInterval := 30,
         maxIdleTime := 900, maxErrorCount := 3, totalConnections := 0,
         successfulPings := 0, failedPings := 0, closedHandles := [] };
     (GetConnection p "a" (CreateOutcome.rawFail "no creds") 9).2 =
         Except.error (PoolError.rawConnFailed "no creds")
     ∧ lookupConn (GetConnection p "a" (CreateOutcome.rawFail "no creds") 9).1.connections "a" =
         some { Name := "a", DB := none, State := StateError, LastUsed := 9,
                LastPing := 0, ErrorCount := 1, CreatedAt := 9 }
     ∧ (GetConnection p "a" (CreateOutcome.pingFail 4 "timeout") 9).2 =
         Except.error (PoolError.pingFailed "timeout")
     ∧ lookupConn (GetConnection p "a" (CreateOutcome.pingFail 4 "timeout") 9).1.connections "a" =
         some { Name := "a", DB := none, State := StateError, LastUsed := 9,
                LastPing := 0, ErrorCount := 1, CreatedAt := 9 }) := by
  have h := c4_failed_creation_registers_error_entry
    ({ connections := [], configNames := ["a"], pingInterval := 30,
       maxIdleTime := 900, maxErrorCount := 3, totalConnections := 0,
       successfulPings := 0, failedPings := 0, closedHandles := [] })
    9 "a" (by decide) (by decide)
  exact ⟨(h.1 "no creds").1, (h.1 "no creds").2.1,
         (h.2 4 "timeout").1, (h.2 4 "timeout").2.1⟩

/-- C10: whenever `GetConnection` takes the creation path for a name that
already has a registry entry, the old entry — whatever its `ErrorCount`,
`CreatedAt`, `LastPing` or `LastUsed` — is overwritten by a brand-new
`PooledConnection`; after a failed call the stored `ErrorCount` is exactly 1,
and never accumulates across repeated failed calls. -/
theorem c10_creation_overwrites_previous_entry (p : ConnectionPool) (now : Nat)
    (name : String) (prev : PooledConnection)
    (hc : name ∈ p.configNames)
    (hprev : lookupConn p.connections name = some prev)
    (hnh : isHealthy (lookupConn p.connections name) = false) :
    (∀ msg,
       lookupConn (GetConnection p name (CreateOutcome.rawFail msg) now).1.connections name =
         some { Name := name, DB := none, State := StateError, LastUsed := now,
                LastPing := 0, ErrorCount := 1, CreatedAt := now })
    ∧ (∀ handle msg,
       lookupConn (GetConnection p name (CreateOutcome.pingFail handle msg) now).1.connections
           name =
         some { Name := name, DB := none, State := StateError, LastUsed := now,
                LastPing := 0, ErrorCount := 1, CreatedAt := now })
    ∧ (∀ handle,
       lookupConn (GetConnection p name (CreateOutcome.ok handle) now).1.connections name =
         some { Name := name, DB := some handle, State := StateConnected, LastUsed := now,
                LastPing := now, ErrorCount := 0, CreatedAt := now }) := by
  refine ⟨?_, ?_, ?_⟩
  · intro msg
    obtain ⟨l', hEq⟩ := GetConnection_not_healthy p name (CreateOutcome.rawFail msg) now hnh
    rw [hEq, createConnection_rawFail_eq ({ p with connections := l' }) name msg now hc]
    simp [lookupConn_updateConn_self]
  · intro handle msg
    obtain ⟨l', hEq⟩ := GetConnection_not_healthy p name (CreateOutcome.pingFail handle msg) now hnh
    rw [hEq, createConnection_pingFail_eq ({ p with connections := l' }) name msg handle now hc]
    simp [lookupConn_updateConn_self]
  · intro handle
    obtain ⟨l', hEq⟩ := GetConnection_not_healthy p name (CreateOutcome.ok handle) now hnh
    rw [hEq, createConnection_ok_eq ({ p with connections := l' }) name handle now hc]
    simp [lookupConn_updateConn_self]

/-- Witness for C10: the prior entry for "a" sits in Error state with
`ErrorCount = 2` and `CreatedAt = 3`; after another failed call the stored
count is exactly 1 (not 3) and every old field is discarded. -/
theorem c10_witness :
    (let prev : PooledConnection :=
       { Name := "a", DB := none, State := StateError, LastUsed := 6,
         LastPing := 0, ErrorCount := 2, CreatedAt := 3 };
     let p : ConnectionPool :=
       { connections := [("a", prev)], configNames := ["a"], pingInterval := 30,
         maxIdleTime := 900, maxErrorCount := 3, totalConnections := 1,
         successfulPings := 0, failedPings := 0, closedHandles := [] };
     lookupConn (GetConnection p "a" (CreateOutcome.rawFail "down") 40).1.connections "a" =
       some { Name := "a", DB := none, State := StateError, LastUsed := 40,
              LastPing := 0, ErrorCount := 1, CreatedAt := 40 }) := by
  exact (c10_creation_overwrites_previous_entry _ 40 "a"
    ({ Name := "a", DB := none, State := StateError, LastUsed := 6,
       LastPing := 0, ErrorCount := 2, CreatedAt := 3 })
    (by decide) (by decide) (by decide)).1 "down"

/-- C6, counterexample: before the call the entry for "a" has `CreatedAt = 5`
and is Disconnected; a recreating `GetConnection` at time 10 succeeds and the
stored entry afterwards has `CreatedAt = 10`, so `createdAt` does not survive
a Disconnected → Connecting → Connected recreation cycle. -/
theorem c6_counterexample_createdAt_reset :
    (let oldConn : PooledConnection :=
       { Name := "a", DB := none, State := StateDisconnected, LastUsed := 0,
         LastPing := 0, ErrorCount := 0, CreatedAt := 5 };
     let p : ConnectionPool :=
       { connections := [("a", oldConn)], configNames := ["a"], pingInterval := 30,
         maxIdleTime := 900, maxErrorCount := 3, totalConnections := 1,
         successfulPings := 0, failedPings := 0, closedHandles := [] };
     lookupConn p.connections "a" = some oldConn
     ∧ oldConn.CreatedAt = 5
     ∧ (GetConnection p "a" (CreateOutcome.ok 9) 10).2 = Except.ok 9
     ∧ lookupConn (GetConnection p "a" (CreateOutcome.ok 9) 10).1.connections "a" =
         some { Name := "a", DB := some 9, State := StateConnected, LastUsed := 10,
                LastPing := 10, ErrorCount := 0, CreatedAt := 10 }) := by
  decide

/-- C6, amended: `CreatedAt` is set when the pooled entry struct is built,
before any open attempt; every pass through the creation path — first
creation, failed attempt, or recreation — constructs a brand-new entry, so the
stored `CreatedAt` always equals the time of the latest creation attempt. -/
theorem c6_amended_createdAt_per_creation (p : ConnectionPool) (now : Nat)
    (name : String) (outcome : CreateOutcome)
    (hc : name ∈ p.configNames)
    (hnh : isHealthy (lookupConn p.connections name) = false) :
    ∃ c, lookupConn (GetConnection p name outcome now).1.connections name = some c
      ∧ c.CreatedAt = now := by
  obtain ⟨l', hEq⟩ := GetConnection_not_healthy p name outcome now hnh
  rw [hEq]
  cases outcome with
  | rawFail msg =>
      rw [createConnection_rawFail_eq ({ p with connections := l' }) name msg now hc]
      refine ⟨({ Name := name, DB := none, State := StateError, LastUsed := now, LastPing := 0, ErrorCount := 1, CreatedAt := now }), ?_, rfl⟩
      simp [lookupConn_updateConn_self]
  | pingFail handle msg =>
      rw [createConnection_pingFail_eq ({ p with connections := l' }) name msg handle now hc]
      refine ⟨({ Name := name, DB := none, State := StateError, LastUsed := now, LastPing := 0, ErrorCount := 1, CreatedAt := now }), ?_, rfl⟩
      simp [lookupConn_updateConn_self]
  | ok handle =>
      rw [createConnection_ok_eq ({ p with connections := l' }) name handle now hc]
      refine ⟨({ Name := name, DB := some handle, State := StateConnected, LastUsed := now, LastPing := now, ErrorCount := 0, CreatedAt := now }), ?_, rfl⟩
      simp [lookupConn_updateConn_self]

/-- Witness for the amended C6 at the counterexample's pool: the recreated
entry's `CreatedAt` equals the recreation time 10. -/
theorem c6_witness :
    ∃ c, lookupConn (GetConnection
        ({ connections := [("a",
             { Name := "a", DB := none, State := StateDisconnected, LastUsed := 0,
               LastPing := 0, ErrorCount := 0, CreatedAt := 5 })],
           configNames := ["a"], pingInterval := 30, maxIdleTime := 900,
           maxErrorCount := 3, totalConnections := 1, successfulPings := 0,
           failedPings := 0, closedHandles := [] })
        "a" (CreateOutcome.ok 9) 10).1.connections "a" = some c
      ∧ c.CreatedAt = 10 := by
  exact c6_amended_createdAt_per_creation _ 10 "a" (CreateOutcome.ok 9)
    (by decide) (by decide)

/-- C5: the idle-reap pass never removes a Connected entry, however old its
`LastUsed`; it removes every entry that is not Connected once its idle time
exceeds `maxIdleTime`, and any handle such an entry still holds is recorded as
closed before the entry disappears from the registry. -/
theorem c5_idle_reap_policy (p : ConnectionPool) (now : Nat) (name : String)
    (conn : PooledConnection)
    (hnd : (p.connections.map Prod.fst).Nodup)
    (hl : lookupConn p.connections name = some conn) :
    (conn.State = StateConnected →
       lookupConn (cleanupIdleConnections p now).connections name = some conn)
    ∧ (conn.State ≠ StateConnected → p.maxIdleTime < now - conn.LastUsed →
       lookupConn (cleanupIdleConnections p now).connections name = none
       ∧ ∀ handle, conn.DB = some handle →
           handle ∈ (cleanupIdleConnections p now).closedHandles) := by
  have hconn_mem : (name, conn) ∈ p.connections := mem_of_lookupConn hl
  constructor
  · intro hst
    have hnotR : name ∉ (p.connections.filter
        (fun e => shouldRemove p.maxIdleTime now e.2)).map Prod.fst := by
      intro hmem
      obtain ⟨e, heF, hefst⟩ := List.mem_map.mp hmem
      obtain ⟨heL, heQ⟩ := List.mem_filter.mp heF
      have hpair : (name, e.2) ∈ p.connections := by
        obtain ⟨a, b⟩ := e
        cases hefst
        exact heL
      have heq : e.2 = conn := lookupConn_key_nodup hnd hl hpair
      rw [heq] at heQ
      simp [shouldRemove, hst] at heQ
    show lookupConn (p.connections.filter (fun e => !decide (e.1 ∈
        (p.connections.filter (fun e => shouldRemove p.maxIdleTime now e.2)).map Prod.fst)))
        name = some conn
    rw [lookupConn_filter_keys_of_notMem hnotR]
    exact hl
  · intro hst hidle
    have hQ : shouldRemove p.maxIdleTime now conn = true := by
      simp [shouldRemove, hst, hidle]
    have hmemR : name ∈ (p.connections.filter
        (fun e => shouldRemove p.maxIdleTime now e.2)).map Prod.fst :=
      List.mem_map.mpr ⟨(name, conn), List.mem_filter.mpr ⟨hconn_mem, hQ⟩, rfl⟩
    refine ⟨?_, ?_⟩
    · show lookupConn (p.connections.filter (fun e => !decide (e.1 ∈
          (p.connections.filter (fun e => shouldRemove p.maxIdleTime now e.2)).map Prod.fst)))
          name = none
      exact lookupConn_filter_keys_of_mem hmemR
    · intro handle hdb
      show handle ∈ p.closedHandles ++
        ((p.connections.filter (fun e => decide (e.1 ∈
            (p.connections.filter (fun e => shouldRemove p.maxIdleTime now e.2)).map Prod.fst))).filterMap
          (fun e => e.2.DB))
      refine List.mem_append_right _ (List.mem_filterMap.mpr ?_)
      exact ⟨(name, conn), List.mem_filter.mpr ⟨hconn_mem, by simpa using hmemR⟩, hdb⟩

/-- Witness for C5: a Connected entry "keep" idle for 1000 time units survives
the reap; a Disconnected entry "drop" of the same age is removed and its
handle 7 is closed. -/
theorem c5_witness :
    (let keepConn : PooledConnection :=
       { Name := "keep", DB := some 3, State := StateConnected, LastUsed := 0,
         LastPing := 0, ErrorCount := 0, CreatedAt := 0 };
     let dropConn : PooledConnection :=
       { Name := "drop", DB := some 7, State := StateDisconnected, LastUsed := 0,
         LastPing := 0, ErrorCount := 0, CreatedAt := 0 };
     let p : ConnectionPool :=
       { connections := [("keep", keepConn), ("drop", dropConn)],
         configNames := ["keep", "drop"], pingInterval := 30, maxIdleTime := 10,
         maxErrorCount := 3, totalConnections := 2, successfulPings := 0,
         failedPings := 0, closedHandles := [] };
     lookupConn (cleanupIdleConnections p 1000).connections "keep" = some keepConn
     ∧ lookupConn (cleanupIdleConnections p 1000).connections "drop" = none
     ∧ 7 ∈ (cleanupIdleConnections p 1000).closedHandles) := by
  refine ⟨?_, ?_, ?_⟩
  · exact (c5_idle_reap_policy _ 1000 "keep" _ (by decide) (by decide)).1 (by decide)
  · exact ((c5_idle_reap_policy _ 1000 "drop" ({ Name := "drop", DB := some 7, State := StateDisconnected, LastUsed := 0, LastPing := 0, ErrorCount := 0, CreatedAt := 0 }) (by decide) (by decide)).2 (by decide) (by decide)).1
  · exact ((c5_idle_reap_policy _ 1000 "drop" ({ Name := "drop", DB := some 7, State := StateDisconnected, LastUsed := 0, LastPing := 0, ErrorCount := 0, CreatedAt := 0 }) (by decide) (by decide)).2 (by decide) (by decide)).2 7 rfl

/-- C9: the snapshot of `GetPoolMetrics` reports the registry's current size as
`ActiveConnections`, the number of Connected entries as `ConnectedCount`, the
number of Error entries as `ErrorCount`, and those two class counts sum to at
most the registry size. -/
theorem c9_metrics_consistency (p : ConnectionPool) :
    (GetPoolMetrics p).ActiveConnections = p.connections.length
    ∧ (GetPoolMetrics p).ConnectedCount =
        (p.connections.filter (fun e => decide (e.2.State = StateConnected))).length
    ∧ (GetPoolMetrics p).ErrorCount =
        (p.connections.filter (fun e => decide (e.2.State = StateError))).length
    ∧ (GetPoolMetrics p).ConnectedCount + (GetPoolMetrics p).ErrorCount ≤
        (GetPoolMetrics p).ActiveConnections := by
  obtain ⟨h1, h2⟩ := metricsFold_spec p.connections 0 0
  have hle := filter_connected_error_le p.connections
  refine ⟨rfl, ?_, ?_, ?_⟩
  · show (p.connections.foldl metricsStep (0, 0)).1 = _
    exact h1.trans (Nat.zero_add _)
  · show (p.connections.foldl metricsStep (0, 0)).2 = _
    exact h2.trans (Nat.zero_add _)
  · show (p.connections.foldl metricsStep (0, 0)).1 +
        (p.connections.foldl metricsStep (0, 0)).2 ≤ p.connections.length
    rw [h1, h2]
    omega
